import Mathlib

/-!
Shallow embedding of the reminder scheduling and delivery subsystem of the
telegram-note-bot repository (src/services/reminder_service.py together with
the `reminders` table of src/models/database.py), and proofs about the
claims of its specification.

Modelling conventions:
* Python naive `datetime` values are embedded as the `DateTime` structure
  below (year/month/day/hour/minute/second; the code never produces
  microseconds: user input is parsed with minute- or second-precision
  formats).  Python compares naive datetimes field-lexicographically, which
  on in-range fields coincides with comparing `DateTime.toSecs`.
* `timedelta(minutes=m)` subtraction is exact proleptic-Gregorian calendar
  arithmetic; it is embedded through the standard civil-from-days /
  days-from-civil conversions.
* SQLite TEXT values are embedded as `List Char`; SQLite's default BINARY
  collation compares UTF-8 bytes, which on the ASCII strings produced here
  (digits, `-`, `:`, `T`, space) is exactly codepoint-lexicographic order
  (`lexLt`).
* The `reminders` table is a list of `Row`s plus the autoincrement counter.
  Its only uniqueness constraint is the autoincrement primary key, which the
  `INSERT OR REPLACE` statement does not mention, so that statement can never
  hit a conflict and behaves as a plain `INSERT` (an append).
* `datetime.now()` (local, used by `schedule_reminder`) and SQLite's
  `datetime('now')` / `CURRENT_TIMESTAMP` (UTC, used by the reconciliation
  query and the mark-sent update) are distinct inputs `nowLocal` / `nowUtc`.
* The scheduler (APScheduler) job table is a list of `Job`s;
  `add_job(..., replace_existing=True)` replaces the job with the same id,
  `remove_job` raises when the id is absent (embedded as `Except`).
* `_send_reminder` only defers to `_send_reminder_async` through the job
  queue; the fire event is embedded as `fireReminder`, the body of
  `_send_reminder_async`, with the notification channel's outcome a `Bool`
  parameter (`sendOk`).  Successful deliveries are accumulated in the
  `delivered` log of the state.
-/

namespace NoteBot

/-- A Python naive `datetime` (microseconds are zero throughout the code). -/
structure DateTime where
  year : Nat
  month : Nat
  day : Nat
  hour : Nat
  minute : Nat
  second : Nat
deriving DecidableEq, Repr

/-- Days since 0000-03-01 of a proleptic-Gregorian civil date
(Howard Hinnant's `days_from_civil`, specialised to years ≥ 1, where all
intermediate quantities are non-negative). -/
def daysFromCivil (y m d : Nat) : Nat :=
  let yy := if m ≤ 2 then y - 1 else y
  let era := yy / 400
  let yoe := yy % 400
  let mp := if 2 < m then m - 3 else m + 9
  let doy := (153 * mp + 2) / 5 + d - 1
  let doe := yoe * 365 + yoe / 4 - yoe / 100 + doy
  era * 146097 + doe

/-- Inverse of `daysFromCivil` (Hinnant's `civil_from_days`). -/
def civilFromDays (z : Nat) : Nat × Nat × Nat :=
  let era := z / 146097
  let doe := z % 146097
  let yoe := (doe - doe / 1460 + doe / 36524 - doe / 146096) / 365
  let y := yoe + era * 400
  let doy := doe - (365 * yoe + yoe / 4 - yoe / 100)
  let mp := (5 * doy + 2) / 153
  let d := doy - (153 * mp + 2) / 5 + 1
  let m := if mp < 10 then mp + 3 else mp - 9
  (if m ≤ 2 then y + 1 else y, m, d)

/-- Seconds since the 0000-03-01 epoch. -/
def DateTime.toSecs (t : DateTime) : Nat :=
  daysFromCivil t.year t.month t.day * 86400
    + t.hour * 3600 + t.minute * 60 + t.second

/-- Rebuild a `DateTime` from an epoch second count. -/
def DateTime.ofSecs (n : Nat) : DateTime :=
  let c := civilFromDays (n / 86400)
  let r := n % 86400
  ⟨c.1, c.2.1, c.2.2, r / 3600, r % 3600 / 60, r % 60⟩

/-- `dt - timedelta(minutes=m)`.  `m` is an `Int`: Python's guard
`if not schedule.reminder_minutes` lets negative values through, and
subtracting a negative number of minutes moves the time forward. -/
def DateTime.subMinutes (t : DateTime) (m : Int) : DateTime :=
  DateTime.ofSecs ((t.toSecs : Int) - m * 60).toNat

/-- Python `a <= b` on naive datetimes (field-lexicographic, which equals
second-count comparison on in-range fields). -/
def DateTime.le (a b : DateTime) : Bool :=
  a.toSecs ≤ b.toSecs

/-- The ASCII digit character of `n % 10`. -/
def digitChar (n : Nat) : Char := Char.ofNat (48 + n % 10)

/-- Two-digit zero-padded decimal rendering. -/
def pad2 (n : Nat) : List Char := [digitChar (n / 10), digitChar n]

/-- Four-digit zero-padded decimal rendering. -/
def pad4 (n : Nat) : List Char :=
  [digitChar (n / 1000), digitChar (n / 100), digitChar (n / 10), digitChar n]

/-- The `YYYY-MM-DD` part shared by `isoformat()` and SQLite timestamps. -/
def dateChars (t : DateTime) : List Char :=
  pad4 t.year ++ '-' :: (pad2 t.month ++ '-' :: pad2 t.day)

/-- The `HH:MM:SS` part shared by `isoformat()` and SQLite timestamps. -/
def timeChars (t : DateTime) : List Char :=
  pad2 t.hour ++ ':' :: (pad2 t.minute ++ ':' :: pad2 t.second)

/-- Python `datetime.isoformat()`: date `'T'` time (seconds always printed
when microseconds are zero). -/
def isoChars (t : DateTime) : List Char :=
  dateChars t ++ 'T' :: timeChars t

/-- SQLite `datetime('now')` / `CURRENT_TIMESTAMP` rendering: date `' '`
time. -/
def sqliteChars (t : DateTime) : List Char :=
  dateChars t ++ ' ' :: timeChars t

/-- Bytewise (BINARY-collation) strict order on ASCII texts. -/
def lexLt : List Char → List Char → Bool
  | [], [] => false
  | [], _ :: _ => true
  | _ :: _, [] => false
  | a :: as, b :: bs =>
    if a.toNat < b.toNat then true
    else if b.toNat < a.toNat then false
    else lexLt as bs

/-- A record of the `schedules` table, as carried around by the service
(src/models/schedule.py). -/
structure Schedule where
  id : Nat
  user_id : Nat
  name : String
  title : String
  description : String
  start_datetime : DateTime
  end_datetime : DateTime
  reminder_minutes : Option Int
deriving DecidableEq, Repr

/-- A row of the `reminders` table: autoincrement primary key `id`,
`schedule_id` (no UNIQUE constraint), `reminder_time TIMESTAMP`,
`sent BOOLEAN DEFAULT FALSE`, `sent_at TIMESTAMP` nullable. -/
structure Row where
  id : Nat
  schedule_id : Nat
  reminder_time : DateTime
  sent : Bool
  sent_at : Option DateTime
deriving DecidableEq, Repr

/-- An APScheduler job as registered by the service: its string id
`"reminder_{schedule.id}"`, the `DateTrigger` run date, and the callback
arguments `[schedule.user_id, schedule]`. -/
structure Job where
  jobId : String
  runDate : DateTime
  userId : Nat
  sched : Schedule
deriving DecidableEq, Repr

/-- The SQLite database: the `schedules` table, the `reminders` table and
its autoincrement counter. -/
structure DB where
  schedules : List Schedule
  rows : List Row
  nextRowId : Nat
deriving DecidableEq, Repr

/-- The whole observable state: database, APScheduler job table, and the
log of notifications actually handed to the Telegram channel
(`context.bot.send_message` calls that succeeded), as `(chat_id, text)`
pairs. -/
structure St where
  db : DB
  jobs : List Job
  delivered : List (Nat × String)
deriving DecidableEq, Repr

/-- `job_id = f"reminder_{schedule_id}"`. -/
def jobIdFor (sid : Nat) : String := "reminder_" ++ toString sid

/-- `scheduler.add_job(..., id=jobId, replace_existing=True)`: replaces the
job with the same id when present, otherwise registers a new one. -/
def addJob (jobs : List Job) (j : Job) : List Job :=
  if jobs.any (fun k => k.jobId == j.jobId) then
    jobs.map (fun k => if k.jobId == j.jobId then j else k)
  else jobs ++ [j]

/-- `scheduler.remove_job(jobId)`: removes the job, or raises
`JobLookupError` (embedded as `Except.error`) when no such job exists. -/
def removeJob (jobs : List Job) (jid : String) : Except Unit (List Job) :=
  if jobs.any (fun k => k.jobId == jid) then
    Except.ok (jobs.filter (fun k => k.jobId != jid))
  else Except.error ()

/-- `INSERT OR REPLACE INTO reminders (schedule_id, reminder_time, sent)
VALUES (?, ?, FALSE)`.  The table's only uniqueness constraint is the
autoincrement primary key, which this statement does not supply, so no
conflict can arise and the statement appends a fresh row
(`sent = FALSE`, `sent_at` NULL). -/
def insertReminderRow (db : DB) (sid : Nat) (t : DateTime) : DB :=
  { db with
    rows := db.rows ++ [⟨db.nextRowId, sid, t, false, none⟩]
    nextRowId := db.nextRowId + 1 }

/-- `ReminderService.schedule_reminder(schedule)`.  `nowLocal` is the value
of `datetime.now()` (naive local time).  The guard
`if not schedule.reminder_minutes` skips `None` and `0` (Python falsiness)
but lets negative values through. -/
def schedule_reminder (s : Schedule) (nowLocal : DateTime) (st : St) : St :=
  match s.reminder_minutes with
  | none => st
  | some m =>
    if m = 0 then st
    else
      let rt := s.start_datetime.subMinutes m
      if rt.le nowLocal then st
      else
        { st with
          db := insertReminderRow st.db s.id rt
          jobs := addJob st.jobs ⟨jobIdFor s.id, rt, s.user_id, s⟩ }

/-- `UPDATE reminders SET sent = TRUE, sent_at = CURRENT_TIMESTAMP WHERE
schedule_id = ?` — every row of the schedule is updated, all other rows and
tables are untouched.  `nowUtc` is SQLite's `CURRENT_TIMESTAMP` (UTC). -/
def markSent (db : DB) (sid : Nat) (nowUtc : DateTime) : DB :=
  { db with
    rows := db.rows.map fun r =>
      if r.schedule_id = sid then { r with sent := true, sent_at := some nowUtc }
      else r }

/-- The notification text composed by `_send_reminder_async`. -/
def reminderMessage (s : Schedule) : String :=
  "🔔 Reminder: " ++ s.title ++ "\n\n"
    ++ "Starts at: " ++ String.mk (dateChars s.start_datetime)
    ++ " " ++ String.mk (pad2 s.start_datetime.hour) ++ ":"
    ++ String.mk (pad2 s.start_datetime.minute) ++ "\n"
    ++ "Ends at: " ++ String.mk (dateChars s.end_datetime)
    ++ " " ++ String.mk (pad2 s.end_datetime.hour) ++ ":"
    ++ String.mk (pad2 s.end_datetime.minute) ++ "\n\n"
    ++ s.description

/-- The `try:` block of `_send_reminder_async`: compose the message, call
`context.bot.send_message` (which delivers and succeeds iff `sendOk`,
raising otherwise), then mark the schedule's reminder rows sent.  The raise
aborts before the UPDATE. -/
def fireBody (sendOk : Bool) (uid : Nat) (s : Schedule) (nowUtc : DateTime)
    (st : St) : Except Unit St :=
  if sendOk then
    Except.ok
      { st with
        delivered := st.delivered ++ [(uid, reminderMessage s)]
        db := markSent st.db s.id nowUtc }
  else Except.error ()

/-- `_send_reminder_async` as a whole: the `except Exception` handler
swallows any delivery error (it only logs), so the handler always returns
normally and on failure changes nothing. -/
def fireReminder (sendOk : Bool) (uid : Nat) (s : Schedule) (nowUtc : DateTime)
    (st : St) : St :=
  match fireBody sendOk uid s nowUtc st with
  | Except.ok st' => st'
  | Except.error _ => st

/-- The WHERE clause of `_load_pending_reminders`:
`r.sent = FALSE AND r.reminder_time > datetime('now')`.  `reminder_time`
was stored as `isoformat()` TEXT ('T' separator) and `datetime('now')`
renders UTC with a space separator, so SQLite compares the two TEXT values
bytewise. -/
def sqlKeep (r : Row) (nowUtc : DateTime) : Bool :=
  r.sent == false && lexLt (sqliteChars nowUtc) (isoChars r.reminder_time)

/-- The rows returned by `_load_pending_reminders`' SELECT: the join pairs
each kept reminder row with its schedule record (`s.id = r.schedule_id`). -/
def loadSelect (db : DB) (nowUtc : DateTime) : List (Schedule × Row) :=
  db.rows.filterMap fun r =>
    if sqlKeep r nowUtc then
      (db.schedules.find? fun s => s.id == r.schedule_id).map fun s => (s, r)
    else none

/-- `ReminderService._load_pending_reminders` (the startup reconciler): for
every selected row, re-register the job exactly as `schedule_reminder`
does; the database is only read. -/
def loadPendingReminders (nowUtc : DateTime) (st : St) : St :=
  { st with
    jobs := (loadSelect st.db nowUtc).foldl
      (fun js p => addJob js ⟨jobIdFor p.1.id, p.2.reminder_time, p.1.user_id, p.1⟩)
      st.jobs }

/-- `ReminderService.cancel_reminder(schedule_id)`: remove the job; the
`try/except` turns a `JobLookupError` into a logged no-op.  The database is
never touched. -/
def cancel_reminder (sid : Nat) (st : St) : St :=
  match removeJob st.jobs (jobIdFor sid) with
  | Except.ok js => { st with jobs := js }
  | Except.error _ => st

/-- The reminder rows currently stored for a schedule id. -/
def rowsFor (db : DB) (sid : Nat) : List Row :=
  db.rows.filter fun r => r.schedule_id == sid

/-! Concrete fixtures: the spec's scenario schedule `S1`
(`startTime = 2025-01-10T10:00:00`, `reminderMinutesBefore = 30`,
expected `firingTime = 2025-01-10T09:30:00`), and small states built
around it. -/

/-- Scenario schedule `S1`. -/
def s1 : Schedule :=
  ⟨1, 7, "standup", "Standup", "daily sync",
   ⟨2025, 1, 10, 10, 0, 0⟩, ⟨2025, 1, 10, 11, 0, 0⟩, some 30⟩

/-- Fresh state: `s1` saved in the schedules table, no reminder rows, no
jobs, nothing delivered. -/
def st0 : St := ⟨⟨[s1], [], 1⟩, [], []⟩

/-- `S1`'s firing time. -/
def t0930 : DateTime := ⟨2025, 1, 10, 9, 30, 0⟩

/-- State in which `S1`'s pending reminder row (unsent) is already
stored. -/
def stPend : St := ⟨⟨[s1], [⟨1, 1, t0930, false, none⟩], 2⟩, [], []⟩

/-- State in which `S1`'s reminder row is already marked sent at
09:30:00. -/
def stSent : St := ⟨⟨[s1], [⟨1, 1, t0930, true, some t0930⟩], 2⟩, [], []⟩

/-- State with `S1`'s unsent row and its armed job (as left by
`schedule_reminder`). -/
def stArmed : St :=
  ⟨⟨[s1], [⟨1, 1, t0930, false, none⟩], 2⟩,
   [⟨jobIdFor 1, t0930, 7, s1⟩], []⟩

/-- State for the reconciliation counterexample: `S1` with an unsent row
whose firing time (2025-01-10T01:00:00) is long past. -/
def stStale : St :=
  ⟨⟨[s1], [⟨1, 1, ⟨2025, 1, 10, 1, 0, 0⟩, false, none⟩], 2⟩, [], []⟩

/-- State holding only the job of schedule 2, for the C5 witness. -/
def stOtherJob : St := { st0 with jobs := [⟨jobIdFor 2, t0930, 7, s1⟩] }

/-- `S1` with a negative lead time. -/
def sNeg : Schedule := { s1 with reminder_minutes := some (-30) }

/-- Database well-formedness delivered by SQLite itself: primary keys are
pairwise distinct and below the autoincrement counter. -/
def idsOk (db : DB) : Prop :=
  (db.rows.map Row.id).Nodup ∧ ∀ r ∈ db.rows, r.id < db.nextRowId

/-- State invariant: a row's `sent_at` is non-null exactly when its `sent`
flag is true. -/
def sentAtOk (db : DB) : Prop :=
  ∀ r ∈ db.rows, r.sent_at.isSome = r.sent

/-- Per-row monotonicity of the `sent` flag between two database states:
a row that is `sent` keeps being `sent` in its successor (matched by
primary key). -/
def sentMono (db db' : DB) : Prop :=
  ∀ r ∈ db.rows, r.sent = true → ∀ r' ∈ db'.rows, r'.id = r.id → r'.sent = true

instance (db : DB) : Decidable (idsOk db) := by
  unfold idsOk ; infer_instance

instance (db : DB) : Decidable (sentAtOk db) := by
  unfold sentAtOk ; infer_instance

/-! ## Claim C1 -/

/-- Claim C1, counterexample: from the state holding `S1`'s unsent pending
row, invoking the fire handler twice for the same schedule (duplicate
firing, both deliveries succeeding) hands the notification to the channel
twice — the claim's "at most once in total" is false, because
`_send_reminder_async` never consults the `sent` flag before sending. -/
theorem c1_duplicate_fire_cex :
    ((fireReminder true 7 s1 ⟨2025, 1, 10, 9, 30, 5⟩
        (fireReminder true 7 s1 t0930 stPend)).delivered).length = 2 := by
  decide

/-- Claim C1, amended: each successful invocation of the fire handler
delivers exactly one notification, unconditionally of the row's `sent`
flag (which it never reads); hence two firings for the same schedule
deliver twice.  The `sent` flag only prevents re-arming during startup
reconciliation. -/
theorem c1_amended_fire_delivers_unconditionally :
    ∀ (uid : Nat) (s : Schedule) (nowU : DateTime) (st : St),
      (fireReminder true uid s nowU st).delivered
          = st.delivered ++ [(uid, reminderMessage s)] ∧
        ∀ n₁ n₂ : DateTime,
          (fireReminder true uid s n₂ (fireReminder true uid s n₁ st)).delivered
            = st.delivered ++ [(uid, reminderMessage s), (uid, reminderMessage s)] := by
  intro uid s nowU st
  refine ⟨rfl, ?_⟩
  intro n₁ n₂
  simp [fireReminder, fireBody]

/-! ## Claim C6 -/

/-- Claim C6: when delivery fails, `context.bot.send_message` raises before
the UPDATE runs, and the `except` handler only logs: the whole state
(rows, jobs, delivery log) is unchanged, no retry job is registered, and
the handler returns normally (the raised error is the swallowed
`Except.error`). -/
theorem c6_delivery_failure_terminal :
    ∀ (uid : Nat) (s : Schedule) (nowU : DateTime) (st : St),
      fireReminder false uid s nowU st = st ∧
        fireBody false uid s nowU st = Except.error () := by
  intro uid s nowU st
  exact ⟨rfl, rfl⟩

/-! ## Claim C2 -/

/-- Claim C2, failing-input evaluation: with `S1`'s pending row already in
the store (from an earlier save) and `now = 2025-01-10T08:00:00`, the
claim's preconditions hold (positive lead, future firing time), yet after
`schedule_reminder` TWO rows exist for schedule 1 — the `reminders` table
has no UNIQUE constraint on `schedule_id`, so `INSERT OR REPLACE`
appends instead of replacing. -/
theorem c2_postcondition_fails_eval :
    s1.reminder_minutes = some 30 ∧
      (s1.start_datetime.subMinutes 30).le ⟨2025, 1, 10, 8, 0, 0⟩ = false ∧
      rowsFor (schedule_reminder s1 ⟨2025, 1, 10, 8, 0, 0⟩ stPend).db 1
        = [⟨1, 1, t0930, false, none⟩, ⟨2, 1, t0930, false, none⟩] := by
  decide

/-! ## Claim C3 -/

/-- Claim C3, failing-input evaluation: calling `schedule_reminder` twice
for `S1` from a fresh store leaves TWO rows for schedule 1, not one — the
`INSERT OR REPLACE` can never hit a conflict because the table's only
uniqueness constraint is the autoincrement primary key the statement does
not mention. -/
theorem c3_twice_leaves_two_rows_eval :
    rowsFor (schedule_reminder s1 ⟨2025, 1, 10, 8, 0, 0⟩
        (schedule_reminder s1 ⟨2025, 1, 10, 8, 0, 0⟩ st0)).db 1
      = [⟨1, 1, t0930, false, none⟩, ⟨2, 1, t0930, false, none⟩] := by
  decide

/-! ## Claim C4 -/

/-- Claim C4, failing-input evaluation: at `now = 2025-01-10 23:00:00`
(UTC) the stored firing time 01:00:00 of the same day has long passed,
yet `_load_pending_reminders` re-arms a job for it: the SQL comparison
`r.reminder_time > datetime('now')` compares the stored `isoformat()`
TEXT against SQLite's space-separated rendering bytewise, and on equal
dates `'T' > ' '` makes every same-day row compare as "future". -/
theorem c4_reconcile_rearms_past_row_eval :
    DateTime.le ⟨2025, 1, 10, 1, 0, 0⟩ ⟨2025, 1, 10, 23, 0, 0⟩ = true ∧
      (loadPendingReminders ⟨2025, 1, 10, 23, 0, 0⟩ stStale).jobs
        = [⟨jobIdFor 1, ⟨2025, 1, 10, 1, 0, 0⟩, 7, s1⟩] := by
  decide

/-! ## Cancellation helper lemmas (shared by claims C5 and C9) -/

/-- When a job with the schedule's id exists, `cancel_reminder` filters it
out of the job table. -/
lemma cancel_reminder_present {sid : Nat} {st : St}
    (h : st.jobs.any (fun k => k.jobId == jobIdFor sid) = true) :
    cancel_reminder sid st
      = { st with jobs := st.jobs.filter fun k => k.jobId != jobIdFor sid } := by
  unfold cancel_reminder removeJob
  rw [h]
  rfl

/-- When no job with the schedule's id exists, `cancel_reminder` is the
identity (the `JobLookupError` is swallowed). -/
lemma cancel_reminder_absent {sid : Nat} {st : St}
    (h : st.jobs.any (fun k => k.jobId == jobIdFor sid) = false) :
    cancel_reminder sid st = st := by
  unfold cancel_reminder removeJob
  rw [h]
  rfl

/-- `cancel_reminder` never touches the database. -/
lemma cancel_reminder_db (sid : Nat) (st : St) :
    (cancel_reminder sid st).db = st.db := by
  cases h : st.jobs.any (fun k => k.jobId == jobIdFor sid)
  · rw [cancel_reminder_absent h]
  · rw [cancel_reminder_present h]

/-- `cancel_reminder` never delivers anything. -/
lemma cancel_reminder_delivered (sid : Nat) (st : St) :
    (cancel_reminder sid st).delivered = st.delivered := by
  cases h : st.jobs.any (fun k => k.jobId == jobIdFor sid)
  · rw [cancel_reminder_absent h]
  · rw [cancel_reminder_present h]

/-- After `cancel_reminder sid`, no job with that schedule's job id is
left. -/
lemma cancel_reminder_jobs_clean (sid : Nat) (st : St) :
    ∀ j ∈ (cancel_reminder sid st).jobs, j.jobId ≠ jobIdFor sid := by
  cases h : st.jobs.any (fun k => k.jobId == jobIdFor sid)
  · rw [cancel_reminder_absent h]
    rw [List.any_eq_false] at h
    intro j hj
    simpa using h j hj
  · rw [cancel_reminder_present h]
    intro j hj
    simp only [List.mem_filter, bne_iff_ne, ne_eq] at hj
    exact hj.2

/-- Filtering out a job id leaves no job with that id. -/
lemma any_filter_bne (jobs : List Job) (jid : String) :
    (jobs.filter fun k => k.jobId != jid).any (fun k => k.jobId == jid) = false := by
  rw [List.any_eq_false]
  intro k hk
  simp only [List.mem_filter, bne_iff_ne, ne_eq] at hk
  simp only [beq_iff_eq]
  exact hk.2

/-- Double cancellation is idempotent. -/
lemma cancel_reminder_idem (sid : Nat) (st : St) :
    cancel_reminder sid (cancel_reminder sid st) = cancel_reminder sid st := by
  cases h : st.jobs.any (fun k => k.jobId == jobIdFor sid)
  · have habs := cancel_reminder_absent h
    rw [habs]
    exact habs
  · have h1 := cancel_reminder_present h
    rw [h1]
    exact cancel_reminder_absent (any_filter_bne st.jobs (jobIdFor sid))

/-! ## Claim C5 -/

/-- Claim C5, counterexample: from the armed state (unsent row plus job for
schedule 1), `cancel_reminder 1` removes the job but the PendingReminder
row for schedule 1 is still in the store afterwards — `cancel_reminder`
contains no DELETE, so the claim's "no pending reminder row for that
schedule id remains" is false. -/
theorem c5_cancel_leaves_row_cex :
    (cancel_reminder 1 stArmed).jobs = [] ∧
      rowsFor (cancel_reminder 1 stArmed).db 1 = [⟨1, 1, t0930, false, none⟩] := by
  decide

/-- Claim C5, amended: `cancel_reminder` removes the in-memory timer job
for the schedule id (afterwards no job with that id remains), but it
deletes nothing from the store: the database (and the delivery log) is
entirely unchanged, so a pending row for the schedule id, if any,
survives the call. -/
theorem c5_amended_cancel_job_only :
    ∀ (sid : Nat) (st : St),
      (cancel_reminder sid st).db = st.db ∧
        (cancel_reminder sid st).delivered = st.delivered ∧
        ∀ j ∈ (cancel_reminder sid st).jobs, j.jobId ≠ jobIdFor sid :=
  fun sid st =>
    ⟨cancel_reminder_db sid st, cancel_reminder_delivered sid st,
     cancel_reminder_jobs_clean sid st⟩

/-- Witness for `c5_amended_cancel_job_only` at schedule id 1 on
`stOtherJob`. -/
theorem c5_amended_cancel_job_only_witness :
    (cancel_reminder 1 stOtherJob).db = stOtherJob.db ∧
      (⟨jobIdFor 2, t0930, 7, s1⟩ : Job).jobId ≠ jobIdFor 1 :=
  ⟨(c5_amended_cancel_job_only 1 stOtherJob).1,
   (c5_amended_cancel_job_only 1 stOtherJob).2.2 ⟨jobIdFor 2, t0930, 7, s1⟩
     (by decide)⟩

/-! ## Claim C8 -/

/-- Claim C8, counterexample: a schedule with `reminder_minutes = -30`
(non-positive) is NOT skipped: Python's `if not schedule.reminder_minutes`
only tests falsiness, so a row is written and a job armed — at
`startTime + 30` minutes, i.e. after the event starts. -/
theorem c8_negative_lead_cex :
    (schedule_reminder sNeg ⟨2025, 1, 10, 9, 0, 0⟩ st0).db.rows
        = [⟨1, 1, ⟨2025, 1, 10, 10, 30, 0⟩, false, none⟩] ∧
      (schedule_reminder sNeg ⟨2025, 1, 10, 9, 0, 0⟩ st0).jobs
        = [⟨jobIdFor 1, ⟨2025, 1, 10, 10, 30, 0⟩, 7, sNeg⟩] := by
  decide

/-- Claim C8, amended: only an absent (`None`) or zero lead time is a
silent no-op — no row, no job, no error (the function returns the state
unchanged). -/
theorem c8_amended_none_or_zero_noop :
    ∀ (s : Schedule) (nowL : DateTime) (st : St),
      s.reminder_minutes = none ∨ s.reminder_minutes = some 0 →
        schedule_reminder s nowL st = st := by
  intro s nowL st h
  rcases h with h | h <;> simp [schedule_reminder, h]

/-- Witness for `c8_amended_none_or_zero_noop` on `S1` without a lead
time. -/
theorem c8_amended_none_or_zero_noop_witness :
    schedule_reminder { s1 with reminder_minutes := none } t0930 st0 = st0 :=
  c8_amended_none_or_zero_noop _ _ _ (Or.inl rfl)

/-! ## Claim C9 -/

/-- Claim C9: cancelling a schedule with no job and no row never raises
(the `try/except` turns the scheduler's `JobLookupError` into a no-op),
leaves the store and delivery log unchanged always, is the identity when
no job with the id exists, and double-cancelling is idempotent. -/
theorem c9_cancel_nonexistent_noop :
    ∀ (sid : Nat) (st : St),
      (cancel_reminder sid st).db = st.db ∧
        (cancel_reminder sid st).delivered = st.delivered ∧
        (st.jobs.any (fun k => k.jobId == jobIdFor sid) = false →
          cancel_reminder sid st = st) ∧
        cancel_reminder sid (cancel_reminder sid st) = cancel_reminder sid st :=
  fun sid st =>
    ⟨cancel_reminder_db sid st, cancel_reminder_delivered sid st,
     fun h => cancel_reminder_absent h, cancel_reminder_idem sid st⟩

/-- Witness for `c9_cancel_nonexistent_noop` on the fresh state (no jobs,
no rows) at schedule id 1. -/
theorem c9_cancel_nonexistent_noop_witness :
    cancel_reminder 1 st0 = st0 :=
  (c9_cancel_nonexistent_noop 1 st0).2.2.1 (by decide)

/-! ## Claim C10 -/

/-- Claim C10: on successful delivery the fire handler's store update is
exactly `markSent` on the fired schedule's id, and `markSent` is a frame:
the schedules table and the autoincrement counter are unchanged, and
row-by-row (pointwise, so in particular every row of the schedule, not
only the latest) a row with the matching `schedule_id` gets only its
`sent`/`sent_at` fields rewritten while any other row is returned
untouched. -/
theorem c10_mark_sent_frame :
    ∀ (uid sid : Nat) (s : Schedule) (nowU : DateTime) (st : St) (db : DB),
      (fireReminder true uid s nowU st).db = markSent st.db s.id nowU ∧
        (markSent db sid nowU).schedules = db.schedules ∧
        (markSent db sid nowU).nextRowId = db.nextRowId ∧
        ∀ i : Nat,
          (markSent db sid nowU).rows.get? i
            = (db.rows.get? i).map fun r =>
                if r.schedule_id = sid then
                  { r with sent := true, sent_at := some nowU }
                else r := by
  intro uid sid s nowU st db
  refine ⟨rfl, rfl, rfl, ?_⟩
  intro i
  simp [markSent]

/-! ## Claim C7 -/

/-- Two rows of a table with `Nodup` primary keys that share a key are the
same row. -/
lemma row_eq_of_id_eq {rows : List Row} (h : (rows.map Row.id).Nodup)
    {a b : Row} (ha : a ∈ rows) (hb : b ∈ rows) (hid : a.id = b.id) : a = b :=
  List.inj_on_of_nodup_map h ha hb hid

/-- With distinct primary keys, `sentMono` is reflexive. -/
lemma sentMono_refl {db : DB} (h : idsOk db) : sentMono db db := by
  intro r hr hs r' hr' hid
  rw [row_eq_of_id_eq h.1 hr' hr hid]
  exact hs

/-- The row transformation performed by `markSent` preserves primary
keys. -/
lemma markSentFun_id (sid : Nat) (nowU : DateTime) (r : Row) :
    (if r.schedule_id = sid then { r with sent := true, sent_at := some nowU }
      else r).id = r.id := by
  split <;> rfl

/-- `markSent` keeps the `sent` flag monotone. -/
lemma sentMono_markSent {db : DB} (h : idsOk db) (sid : Nat) (nowU : DateTime) :
    sentMono db (markSent db sid nowU) := by
  intro r hr hs r' hr' hid
  obtain ⟨r'', hr'', hmap⟩ := List.mem_map.1 hr'
  have hid2 : r''.id = r.id := by
    rw [← hid, ← hmap]
    exact (markSentFun_id sid nowU r'').symm
  rw [row_eq_of_id_eq h.1 hr'' hr hid2] at hmap
  rw [← hmap]
  by_cases hs' : r.schedule_id = sid
  · simp [hs']
  · simp [hs', hs]

/-- `markSent` preserves the `sent_at`/`sent` consistency invariant. -/
lemma sentAtOk_markSent {db : DB} (h : sentAtOk db) (sid : Nat) (nowU : DateTime) :
    sentAtOk (markSent db sid nowU) := by
  intro r' hr'
  obtain ⟨r, hr, hmap⟩ := List.mem_map.1 hr'
  rw [← hmap]
  by_cases hs : r.schedule_id = sid
  · simp [hs]
  · simp [hs, h r hr]

/-- `markSent` preserves primary-key well-formedness. -/
lemma idsOk_markSent {db : DB} (h : idsOk db) (sid : Nat) (nowU : DateTime) :
    idsOk (markSent db sid nowU) := by
  constructor
  · show ((db.rows.map _).map Row.id).Nodup
    rw [List.map_map]
    have : db.rows.map (Row.id ∘ fun r =>
        if r.schedule_id = sid then { r with sent := true, sent_at := some nowU }
        else r) = db.rows.map Row.id :=
      List.map_congr_left fun r _ => markSentFun_id sid nowU r
    rw [this]
    exact h.1
  · intro r' hr'
    obtain ⟨r, hr, hmap⟩ := List.mem_map.1 hr'
    rw [← hmap, markSentFun_id]
    exact h.2 r hr

/-- Appending a fresh row keeps the `sent` flag of old rows monotone: the
new row's key equals the counter, above every existing key. -/
lemma sentMono_insert {db : DB} (h : idsOk db) (sid : Nat) (t : DateTime) :
    sentMono db (insertReminderRow db sid t) := by
  intro r hr hs r' hr' hid
  rcases List.mem_append.1 hr' with h' | h'
  · rw [row_eq_of_id_eq h.1 h' hr hid]
    exact hs
  · simp only [List.mem_singleton] at h'
    rw [h'] at hid
    exact absurd (hid ▸ h.2 r hr) (lt_irrefl _)

/-- The appended row starts with `sent = FALSE` and `sent_at` NULL, so the
consistency invariant survives insertion. -/
lemma sentAtOk_insert {db : DB} (h : sentAtOk db) (sid : Nat) (t : DateTime) :
    sentAtOk (insertReminderRow db sid t) := by
  intro r' hr'
  rcases List.mem_append.1 hr' with h' | h'
  · exact h r' h'
  · simp only [List.mem_singleton] at h'
    rw [h']
    rfl

/-- Insertion preserves primary-key well-formedness (the fresh key is the
counter, which is then bumped). -/
lemma idsOk_insert {db : DB} (h : idsOk db) (sid : Nat) (t : DateTime) :
    idsOk (insertReminderRow db sid t) := by
  have hrows : (insertReminderRow db sid t).rows
      = db.rows ++ [Row.mk db.nextRowId sid t false none] := rfl
  constructor
  · rw [hrows, List.map_append, List.nodup_append]
    refine ⟨h.1, List.nodup_singleton _, ?_⟩
    intro a ha hb
    simp only [List.map_cons, List.map_nil, List.mem_singleton] at hb
    obtain ⟨r, hr, hmap⟩ := List.mem_map.1 ha
    have := h.2 r hr
    rw [hmap, hb] at this
    exact absurd this (lt_irrefl _)
  · intro r' hr'
    rw [hrows] at hr'
    rcases List.mem_append.1 hr' with h' | h'
    · exact Nat.lt_succ_of_lt (h.2 r' h')
    · simp only [List.mem_singleton] at h'
      rw [h']
      exact Nat.lt_succ_self _

/-- `schedule_reminder` either leaves the database alone (no/zero lead
time, past-due firing time) or appends one fresh unsent row. -/
lemma schedule_reminder_db_cases (s : Schedule) (nowL : DateTime) (st : St) :
    (schedule_reminder s nowL st).db = st.db ∨
      ∃ m : Int, s.reminder_minutes = some m ∧
        (schedule_reminder s nowL st).db
          = insertReminderRow st.db s.id (s.start_datetime.subMinutes m) := by
  unfold schedule_reminder
  cases hm : s.reminder_minutes with
  | none => exact Or.inl rfl
  | some m =>
    dsimp only
    by_cases h0 : m = 0
    · simp [h0]
    · rw [if_neg h0]
      by_cases hle : (s.start_datetime.subMinutes m).le nowL = true
      · rw [if_pos hle]
        exact Or.inl rfl
      · rw [if_neg hle]
        exact Or.inr ⟨m, rfl, rfl⟩

/-- The reconciler never writes to the database. -/
lemma loadPendingReminders_db (nowU : DateTime) (st : St) :
    (loadPendingReminders nowU st).db = st.db := rfl

/-- Claim C7, counterexample: with `S1`'s row already `sent=true` and
`sent_at=09:30:00`, a second successful firing at 09:31:00 rewrites
`sent_at` to 09:31:00 even though `sent` did not become true at that step
(it already was) — "`sent_at` is set exactly when `sent` becomes true" is
false, because the mark-sent UPDATE is unconditional on the previous
flag. -/
theorem c7_sent_at_rewritten_cex :
    stSent.db.rows = [⟨1, 1, t0930, true, some t0930⟩] ∧
      (fireReminder true 7 s1 ⟨2025, 1, 10, 9, 31, 0⟩ stSent).db.rows
          = [⟨1, 1, t0930, true, some ⟨2025, 1, 10, 9, 31, 0⟩⟩] ∧
      (⟨2025, 1, 10, 9, 31, 0⟩ : DateTime) ≠ t0930 := by
  decide

/-- Claim C7, amended: under SQLite's primary-key well-formedness
(`idsOk`), every operation of the core — `schedule_reminder`,
`cancel_reminder`, the fire handler (either delivery outcome) and the
startup reconciler — keeps each row's `sent` flag monotone (never
`true → false`; a row, matched by primary key, that was sent stays sent),
preserves the invariant that `sent_at` is non-null exactly when `sent` is
true, and preserves well-formedness itself.  (The per-event reading
"`sent_at` is written only when `sent` becomes true" is the part the
counterexample refutes: a redundant successful fire rewrites `sent_at`.) -/
theorem c7_amended_sent_monotone :
    ∀ (st : St) (s : Schedule) (sid uid : Nat) (nowL nowU : DateTime) (b : Bool),
      idsOk st.db →
        (sentMono st.db (schedule_reminder s nowL st).db ∧
          sentMono st.db (cancel_reminder sid st).db ∧
          sentMono st.db (fireReminder b uid s nowU st).db ∧
          sentMono st.db (loadPendingReminders nowU st).db) ∧
        (sentAtOk st.db →
          sentAtOk (schedule_reminder s nowL st).db ∧
            sentAtOk (cancel_reminder sid st).db ∧
            sentAtOk (fireReminder b uid s nowU st).db ∧
            sentAtOk (loadPendingReminders nowU st).db) ∧
        (idsOk (schedule_reminder s nowL st).db ∧
          idsOk (cancel_reminder sid st).db ∧
          idsOk (fireReminder b uid s nowU st).db ∧
          idsOk (loadPendingReminders nowU st).db) := by
  intro st s sid uid nowL nowU b h
  have hsched :
      ∀ P : DB → Prop, P st.db →
        (∀ m : Int, P (insertReminderRow st.db s.id (s.start_datetime.subMinutes m))) →
        P (schedule_reminder s nowL st).db := by
    intro P hbase hins
    rcases schedule_reminder_db_cases s nowL st with hc | ⟨m, _, hc⟩
    · rw [hc] ; exact hbase
    · rw [hc] ; exact hins m
  have hfire :
      ∀ P : DB → Prop, P st.db → P (markSent st.db s.id nowU) →
        P (fireReminder b uid s nowU st).db := by
    intro P hbase hmark
    cases b
    · exact hbase
    · exact hmark
  refine ⟨⟨?_, ?_, ?_, ?_⟩, fun hs => ⟨?_, ?_, ?_, ?_⟩, ?_, ?_, ?_, ?_⟩
  · exact hsched _ (sentMono_refl h) fun m => sentMono_insert h _ _
  · rw [cancel_reminder_db] ; exact sentMono_refl h
  · exact hfire _ (sentMono_refl h) (sentMono_markSent h _ _)
  · rw [loadPendingReminders_db] ; exact sentMono_refl h
  · exact hsched _ hs fun m => sentAtOk_insert hs _ _
  · rw [cancel_reminder_db] ; exact hs
  · exact hfire _ hs (sentAtOk_markSent hs _ _)
  · rw [loadPendingReminders_db] ; exact hs
  · exact hsched _ h fun m => idsOk_insert h _ _
  · rw [cancel_reminder_db] ; exact h
  · exact hfire _ h (idsOk_markSent h _ _)
  · rw [loadPendingReminders_db] ; exact h

/-- Witness for `c7_amended_sent_monotone`: the fire handler on the
already-sent state keeps `sent_at`/`sent` consistent. -/
theorem c7_amended_sent_monotone_witness :
    idsOk stSent.db ∧ sentAtOk (fireReminder true 7 s1 t0930 stSent).db :=
  ⟨by decide,
   ((c7_amended_sent_monotone stSent s1 1 7 t0930 t0930 true
        (by decide)).2.1 (by decide)).2.2.1⟩

end NoteBot
